import Mathlib

/-!
Verification development for the caching subsystem of the Spendings-Control
repository: the read-through memoizer (`app/db/redis/redis_client.py`), the
pattern-based invalidation coordinator (`app/db/redis/cache_helpers.py`),
the report-image cache (`app/db/redis/report_image_cache.py`) and the
repository functions that drive them.

The cache store is modelled as an association list from key strings to
values; Redis `KEYS pattern` matching is modelled by a glob matcher for
patterns built from literal characters and `*` (the only wildcard the
repository's patterns use).
-/

/-- Fuel-driven glob matcher: `globMatchAux fuel p k` decides whether the
glob pattern `p` (literal characters plus the `*` wildcard) matches the
whole key `k`.  Each recursive call strictly decreases `p.length + k.length`,
so any `fuel > p.length + k.length` computes the true answer.  The fuel
formulation keeps the function structurally recursive, hence kernel
reducible. -/
def globMatchAux : Nat → List Char → List Char → Bool
  | 0, _, _ => false
  | _ + 1, [], k => k.isEmpty
  | fuel + 1, p :: ps, [] => p == '*' && globMatchAux fuel ps []
  | fuel + 1, p :: ps, c :: ks =>
    if p == '*' then globMatchAux fuel ps (c :: ks) || globMatchAux fuel (p :: ps) ks
    else p == c && globMatchAux fuel ps ks

/-- Glob matching with enough fuel to be total on its arguments. -/
def globMatch (p k : List Char) : Bool :=
  globMatchAux (p.length + k.length + 1) p k

theorem globMatchAux_fuel (f g : Nat) (p k : List Char)
    (hf : p.length + k.length < f) (hg : p.length + k.length < g) :
    globMatchAux f p k = globMatchAux g p k := by
  induction f generalizing g p k with
  | zero => omega
  | succ f ih =>
    obtain ⟨g, rfl⟩ : ∃ g', g = g' + 1 := ⟨g - 1, by omega⟩
    match p, k with
    | [], k => rfl
    | p :: ps, [] =>
      simp only [globMatchAux]
      rw [ih g ps [] (by simp at hf ⊢; omega) (by simp at hg ⊢; omega)]
    | p :: ps, c :: ks =>
      simp only [globMatchAux]
      by_cases hp : (p == '*') = true
      · rw [if_pos hp, if_pos hp,
          ih g ps (c :: ks) (by simp at hf ⊢; omega) (by simp at hg ⊢; omega),
          ih g (p :: ps) ks (by simp at hf ⊢; omega) (by simp at hg ⊢; omega)]
      · rw [if_neg hp, if_neg hp,
          ih g ps ks (by simp at hf ⊢; omega) (by simp at hg ⊢; omega)]

theorem globMatchAux_eq_globMatch (f : Nat) (p k : List Char)
    (hf : p.length + k.length < f) : globMatchAux f p k = globMatch p k :=
  globMatchAux_fuel f (p.length + k.length + 1) p k hf (by omega)

theorem globMatch_nil (k : List Char) : globMatch [] k = k.isEmpty := rfl

theorem globMatch_cons_nil (p : Char) (ps : List Char) :
    globMatch (p :: ps) [] = (p == '*' && globMatch ps []) := rfl

theorem globMatch_cons_cons (p : Char) (ps : List Char) (c : Char) (ks : List Char) :
    globMatch (p :: ps) (c :: ks) =
      if p == '*' then globMatch ps (c :: ks) || globMatch (p :: ps) ks
      else p == c && globMatch ps ks := by
  conv_lhs => rw [globMatch]
  simp only [globMatchAux]
  rw [globMatchAux_eq_globMatch _ ps (c :: ks) (by simp only [List.length_cons]; omega),
    globMatchAux_eq_globMatch _ (p :: ps) ks (by simp only [List.length_cons]; omega),
    globMatchAux_eq_globMatch _ ps ks (by simp only [List.length_cons]; omega)]

theorem globMatch_star_any (k : List Char) : globMatch ['*'] k = true := by
  induction k with
  | nil => rw [globMatch_cons_nil, globMatch_nil]; rfl
  | cons c ks ih =>
    rw [globMatch_cons_cons, if_pos (by rfl)]
    simp [ih]

theorem globMatch_star_absorb {ps k : List Char} (h : globMatch ps k = true) :
    globMatch ('*' :: ps) k = true := by
  cases k with
  | nil => rw [globMatch_cons_nil, h]; rfl
  | cons c ks =>
    rw [globMatch_cons_cons, if_pos (by rfl)]
    simp [h]

theorem globMatch_refl (p : List Char) : globMatch p p = true := by
  induction p with
  | nil => rw [globMatch_nil]; rfl
  | cons c cs ih =>
    rw [globMatch_cons_cons]
    by_cases hc : (c == '*') = true
    · have hc' : c = '*' := by simpa using hc
      subst hc'
      rw [if_pos hc]
      have h := globMatch_star_absorb ih
      simp [h]
    · rw [if_neg hc]
      simp [ih]

theorem globMatch_append : ∀ (n : Nat) (p₁ k₁ p₂ k₂ : List Char),
    p₁.length + k₁.length ≤ n →
    globMatch p₁ k₁ = true → globMatch p₂ k₂ = true →
    globMatch (p₁ ++ p₂) (k₁ ++ k₂) = true := by
  intro n
  induction n with
  | zero =>
    intro p₁ k₁ p₂ k₂ hn h1 h2
    match p₁, k₁ with
    | [], [] => simpa using h2
    | _ :: _, _ => simp at hn
    | [], _ :: _ => simp at hn
  | succ n ih =>
    intro p₁ k₁ p₂ k₂ hn h1 h2
    match p₁, k₁ with
    | [], k₁ =>
      have hk : k₁ = [] := by rw [globMatch_nil] at h1; exact List.isEmpty_iff.mp h1
      subst hk
      simpa using h2
    | p :: ps, [] =>
      rw [globMatch_cons_nil] at h1
      have hp : (p == '*') = true := (Bool.and_eq_true_iff.mp h1).1
      have hps : globMatch ps [] = true := (Bool.and_eq_true_iff.mp h1).2
      have hp' : p = '*' := by simpa using hp
      subst hp'
      have hrec := ih ps [] p₂ k₂ (by simp at hn ⊢; omega) hps h2
      show globMatch ('*' :: (ps ++ p₂)) ([] ++ k₂) = true
      exact globMatch_star_absorb (by simpa using hrec)
    | p :: ps, c :: ks =>
      rw [globMatch_cons_cons] at h1
      by_cases hp : (p == '*') = true
      · rw [if_pos hp] at h1
        have hp' : p = '*' := by simpa using hp
        subst hp'
        by_cases hL : globMatch ps (c :: ks) = true
        · have hrec := ih ps (c :: ks) p₂ k₂ (by simp at hn ⊢; omega) hL h2
          show globMatch ('*' :: (ps ++ p₂)) (c :: (ks ++ k₂)) = true
          exact globMatch_star_absorb (by simpa using hrec)
        · have hL' : globMatch ps (c :: ks) = false := by
            simpa using hL
          rw [hL', Bool.false_or] at h1
          have hrec := ih ('*' :: ps) ks p₂ k₂ (by simp at hn ⊢; omega) h1 h2
          show globMatch ('*' :: (ps ++ p₂)) (c :: (ks ++ k₂)) = true
          rw [globMatch_cons_cons, if_pos (by rfl)]
          have h' : globMatch ('*' :: (ps ++ p₂)) (ks ++ k₂) = true := by simpa using hrec
          simp [h']
      · rw [if_neg hp] at h1
        have hc : (p == c) = true := (Bool.and_eq_true_iff.mp h1).1
        have hps : globMatch ps ks = true := (Bool.and_eq_true_iff.mp h1).2
        have hrec := ih ps ks p₂ k₂ (by simp at hn ⊢; omega) hps h2
        show globMatch (p :: (ps ++ p₂)) (c :: (ks ++ k₂)) = true
        rw [globMatch_cons_cons, if_neg hp]
        simp [hc, hrec]

theorem globMatch_split : ∀ (n : Nat) (p₁ p₂ k : List Char),
    p₁.length + k.length ≤ n →
    globMatch (p₁ ++ p₂) k = true →
    ∃ k₁ k₂, k = k₁ ++ k₂ ∧ globMatch p₁ k₁ = true ∧ globMatch p₂ k₂ = true := by
  intro n
  induction n with
  | zero =>
    intro p₁ p₂ k hn h
    match p₁, k with
    | [], [] =>
      exact ⟨[], [], rfl, by rw [globMatch_nil]; rfl, by simpa using h⟩
    | _ :: _, _ => simp at hn
    | [], _ :: _ => simp at hn
  | succ n ih =>
    intro p₁ p₂ k hn h
    match p₁, k with
    | [], k => exact ⟨[], k, rfl, by rw [globMatch_nil]; rfl, by simpa using h⟩
    | p :: ps, [] =>
      have h' : globMatch (p :: (ps ++ p₂)) [] = true := by simpa using h
      rw [globMatch_cons_nil] at h'
      have hp : (p == '*') = true := (Bool.and_eq_true_iff.mp h').1
      have hps : globMatch (ps ++ p₂) [] = true := (Bool.and_eq_true_iff.mp h').2
      obtain ⟨k₁, k₂, heq, m1, m2⟩ := ih ps p₂ [] (by simp at hn ⊢; omega) hps
      obtain ⟨hk₁, hk₂⟩ := List.append_eq_nil.mp heq.symm
      subst hk₁; subst hk₂
      refine ⟨[], [], rfl, ?_, m2⟩
      rw [globMatch_cons_nil, hp, m1]
      rfl
    | p :: ps, c :: ks =>
      have h' : globMatch (p :: (ps ++ p₂)) (c :: ks) = true := by simpa using h
      rw [globMatch_cons_cons] at h'
      by_cases hp : (p == '*') = true
      · rw [if_pos hp] at h'
        have hp' : p = '*' := by simpa using hp
        subst hp'
        by_cases hL : globMatch (ps ++ p₂) (c :: ks) = true
        · obtain ⟨k₁, k₂, heq, m1, m2⟩ := ih ps p₂ (c :: ks) (by simp at hn ⊢; omega) hL
          exact ⟨k₁, k₂, heq, globMatch_star_absorb m1, m2⟩
        · have hL' : globMatch (ps ++ p₂) (c :: ks) = false := by simpa using hL
          rw [hL', Bool.false_or] at h'
          have h'' : globMatch (('*' :: ps) ++ p₂) ks = true := by simpa using h'
          obtain ⟨k₁, k₂, heq, m1, m2⟩ := ih ('*' :: ps) p₂ ks (by simp at hn ⊢; omega) h''
          refine ⟨c :: k₁, k₂, by rw [heq]; rfl, ?_, m2⟩
          rw [globMatch_cons_cons, if_pos (by rfl)]
          simp [m1]
      · rw [if_neg hp] at h'
        have hc : (p == c) = true := (Bool.and_eq_true_iff.mp h').1
        have hps : globMatch (ps ++ p₂) ks = true := (Bool.and_eq_true_iff.mp h').2
        obtain ⟨k₁, k₂, heq, m1, m2⟩ := ih ps p₂ ks (by simp at hn ⊢; omega) hps
        refine ⟨c :: k₁, k₂, by rw [heq]; rfl, ?_, m2⟩
        rw [globMatch_cons_cons, if_neg hp]
        simp [hc, m1]

theorem globMatch_no_star : ∀ (p : List Char), '*' ∉ p →
    ∀ (k : List Char), (globMatch p k = true ↔ p = k) := by
  intro p
  induction p with
  | nil =>
    intro _ k
    rw [globMatch_nil]
    cases k <;> simp
  | cons p ps ih =>
    intro hstar k
    have hp : p ≠ '*' := fun h => hstar (h ▸ List.mem_cons_self p ps)
    have hps : '*' ∉ ps := fun h => hstar (List.mem_cons_of_mem p h)
    have hpb : ¬((p == '*') = true) := by simpa using hp
    cases k with
    | nil =>
      rw [globMatch_cons_nil]
      simp [hpb]
    | cons c ks =>
      rw [globMatch_cons_cons, if_neg hpb]
      simp [ih hps ks]

theorem globMatch_mid_infix (a mid b k : List Char) (hm : '*' ∉ mid)
    (h : globMatch (a ++ (mid ++ b)) k = true) : mid <:+: k := by
  obtain ⟨k₁, k₂, hk, _, h2⟩ := globMatch_split (a.length + k.length) a (mid ++ b) k le_rfl h
  obtain ⟨k₃, k₄, hk2, h3, _⟩ := globMatch_split (mid.length + k₂.length) mid b k₂ le_rfl h2
  have hmid : mid = k₃ := (globMatch_no_star mid hm k₃).mp h3
  subst hk; subst hk2
  exact ⟨k₁, k₄, by simp [hmid, List.append_assoc]⟩

theorem globMatch_of_infix (mid k : List Char) (h : mid <:+: k) :
    globMatch ('*' :: (mid ++ ['*'])) k = true := by
  obtain ⟨s, t, hst⟩ := h
  have h23 : globMatch (mid ++ ['*']) (mid ++ t) = true :=
    globMatch_append (mid.length + mid.length) mid mid ['*'] t le_rfl
      (globMatch_refl mid) (globMatch_star_any t)
  have h123 : globMatch (['*'] ++ (mid ++ ['*'])) (s ++ (mid ++ t)) = true :=
    globMatch_append (1 + s.length) ['*'] s (mid ++ ['*']) (mid ++ t) (by simp)
      (globMatch_star_any s) h23
  have hk : s ++ (mid ++ t) = k := by rw [← hst]; simp [List.append_assoc]
  rw [← hk]
  simpa using h123

theorem digitChar_ne_star : ∀ n : Nat, n < 10 → Nat.digitChar n ≠ '*' := by decide

theorem toDigitsCore_no_star : ∀ (fuel n : Nat) (ds : List Char), '*' ∉ ds →
    '*' ∉ Nat.toDigitsCore 10 fuel n ds := by
  intro fuel
  induction fuel with
  | zero => intro n ds h; simpa [Nat.toDigitsCore] using h
  | succ fuel ih =>
    intro n ds h
    have hd : Nat.digitChar (n % 10) ≠ '*' := digitChar_ne_star _ (Nat.mod_lt _ (by omega))
    have hcons : '*' ∉ Nat.digitChar (n % 10) :: ds := by
      intro hmem
      rcases List.mem_cons.mp hmem with he | hm
      · exact hd he.symm
      · exact h hm
    by_cases h0 : n / 10 = 0
    · simpa [Nat.toDigitsCore, h0] using hcons
    · simpa [Nat.toDigitsCore, h0] using ih (n / 10) _ hcons

theorem toString_nat_no_star (n : Nat) : '*' ∉ (toString n).data :=
  toDigitsCore_no_star (n + 1) n [] (by simp)

/-- Redis `KEYS` pattern matching on key strings (the repository only ever
uses the `*` wildcard in its patterns). -/
def keyMatch (pat key : String) : Bool := globMatch pat.data key.data

/-- Redis `GET key`: the cache store is an association list from key
strings to cached values. -/
def lookupStore {α : Type} : List (String × α) → String → Option α
  | [], _ => none
  | kv :: rest, key => if kv.1 == key then some kv.2 else lookupStore rest key

/-- Redis `SET key value`: overwrite the entry for `key`, or append it. -/
def insertStore {α : Type} : List (String × α) → String → α → List (String × α)
  | [], key, v => [(key, v)]
  | kv :: rest, key, v =>
    if kv.1 == key then (key, v) :: rest else kv :: insertStore rest key v

/-- Net effect of one loop iteration of the invalidation helpers
(`keys = await redis.keys(pattern)` followed by `if keys: await
redis.delete(*keys)`): every stored entry whose key matches the pattern is
removed; when nothing matches the store is untouched. -/
def deleteMatching {α : Type} (pat : String) (st : List (String × α)) :
    List (String × α) :=
  st.filter (fun kv => !(keyMatch pat kv.1))

/-- The `for pattern in patterns:` scan-and-delete loop shared by all
invalidation helpers in cache_helpers.py and report_image_cache.py. -/
def runPatterns {α : Type} (st : List (String × α)) (pats : List String) :
    List (String × α) :=
  pats.foldl (fun s pat => deleteMatching pat s) st

/-- Python `":".join(parts)`. -/
def joinColon : List String → String
  | [] => ""
  | [x] => x
  | x :: rest => x ++ ":" ++ joinColon rest

/-- Default cache-key construction of the `redis_cache` decorator
(redis_client.py lines 40-51): prefix, function name, the positional
arguments' string forms, then `"k:v"` for each keyword argument sorted by
name, joined with `":"`.  The leading `AsyncSession` argument has already
been stripped from `args`. -/
def buildKey (pfx fname : String) (args : List String)
    (kwargs : List (String × String)) : String :=
  joinColon ([pfx, fname] ++ args ++
    (if kwargs.isEmpty then [] else
      (kwargs.mergeSort (fun a b => a.1 ≤ b.1)).map (fun kv => kv.1 ++ ":" ++ kv.2)))

/-- Serialization pair modelling `json.dumps` / `json.loads` for the result
type of a wrapped operation. -/
structure SerDe (α : Type) where
  dumps : α → String
  loads : String → α

/-- Store state seen by one wrapper call: the stored data plus failure
flags: `getFails` makes `redis.get` raise inside the `try` block;
`setFails` makes the serialize-and-`redis.set` step raise. -/
structure CacheStore where
  data : List (String × String)
  getFails : Bool
  setFails : Bool
deriving DecidableEq

/-- Miss path of `redis_cache.wrapper` (redis_client.py lines 60-71): run
the loader; a `None` result is returned without caching; otherwise
serialize and SET.  If the SET step raises, the `except` handler
(lines 73-76) logs and runs the wrapped function a second time, returning
that second result.  The third component counts loader invocations. -/
def wrapperMiss {α : Type} (sd : SerDe α) (loader : Option α) (key : String)
    (st : CacheStore) : Option α × CacheStore × Nat :=
  match loader with
  | none => (none, st, 1)
  | some r =>
    if st.setFails then
      (some r, st, 2)
    else
      (some r, { st with data := insertStore st.data key (sd.dumps r) }, 1)

/-- One call of `redis_cache.wrapper` (redis_client.py lines 53-76) with
the cache key already built.  An empty stored string is falsy in Python
(`if cached_value:`), hence treated as a miss; when `redis.get` raises,
the `except` handler invokes the loader once and returns its result. -/
def wrapperCall {α : Type} (sd : SerDe α) (loader : Option α) (key : String)
    (st : CacheStore) : Option α × CacheStore × Nat :=
  if st.getFails then
    (loader, st, 1)
  else
    match lookupStore st.data key with
    | some v =>
      if v == "" then wrapperMiss sd loader key st else (some (sd.loads v), st, 0)
    | none => wrapperMiss sd loader key st

/-- Exact-key DELETE performed by the decorator's `invalidate_cache`
helper (redis_client.py lines 79-91). -/
def invalidateCacheKey {α : Type} (key : String) (st : List (String × α)) :
    List (String × α) :=
  st.filter (fun kv => !(kv.1 == key))

/-- Python truthiness of an `Optional[int]`: `None` and `0` are falsy
(`if year:` / `if month:` in cache_helpers.py). -/
def optTruthy : Option Nat → Bool
  | none => false
  | some n => n != 0

/-- Patterns built by `invalidate_expense_caches`
(cache_helpers.py lines 11-26). -/
def expensePatterns (user_id : Nat) (year month : Option Nat) : List String :=
  let base := [("total_spent:*" ++ toString user_id ++ "*"),
               ("unique_years:*" ++ toString user_id ++ "*"),
               ("last_expenses:*" ++ toString user_id ++ "*")]
  if optTruthy year then
    let y := year.getD 0
    let base2 := base ++
      [("yearly_expenses:*" ++ toString user_id ++ "*" ++ toString y ++ "*")]
    if optTruthy month then
      let m := month.getD 0
      base2 ++
        [("monthly_expenses:*" ++ toString user_id ++ "*" ++ toString y ++ "*" ++ toString m ++ "*"),
         ("daily_expenses:*" ++ toString user_id ++ "*" ++ toString y ++ "*" ++ toString m ++ "*"),
         ("expenses_by_date:*" ++ toString user_id ++ "*" ++ toString y ++ "*" ++ toString m ++ "*")]
    else base2
  else base

/-- Patterns built by `invalidate_report_images`
(report_image_cache.py lines 43-56); unlike the expense helper this
function tests `is None`, not truthiness. -/
def reportImagePatterns (user_id : Nat) (year month : Option Nat) : List String :=
  match year with
  | none => [("report_image:*:" ++ toString user_id ++ ":*")]
  | some y =>
    match month with
    | none =>
      [("report_image:*:" ++ toString user_id ++ ":" ++ toString y ++ ":*"),
       ("report_image:yearly:" ++ toString user_id ++ ":" ++ toString y)]
    | some m =>
      [("report_image:daily:" ++ toString user_id ++ ":" ++ toString y ++ ":" ++ toString m),
       ("report_image:monthly:" ++ toString user_id ++ ":" ++ toString y ++ ":" ++ toString m),
       ("report_image:yearly:" ++ toString user_id ++ ":" ++ toString y)]

/-- `invalidate_report_images(user_id, year, month)`
(report_image_cache.py lines 41-61). -/
def invalidateReportImages {α : Type} (user_id : Nat) (year month : Option Nat)
    (st : List (String × α)) : List (String × α) :=
  runPatterns st (reportImagePatterns user_id year month)

/-- `invalidate_expense_caches(session, user_id, year, month)`
(cache_helpers.py lines 7-35): scan-and-delete the expense patterns, then
cascade into `invalidate_report_images`. -/
def invalidateExpenseCaches {α : Type} (user_id : Nat) (year month : Option Nat)
    (st : List (String × α)) : List (String × α) :=
  invalidateReportImages user_id year month
    (runPatterns st (expensePatterns user_id year month))

/-- Patterns of `invalidate_category_caches` (cache_helpers.py lines 40-44). -/
def categoryPatterns (user_id : Nat) : List String :=
  [("categories:*" ++ toString user_id ++ "*"),
   ("category:*" ++ toString user_id ++ "*"),
   ("category_stats:*" ++ toString user_id ++ "*")]

/-- `invalidate_category_caches(session, user_id)` (cache_helpers.py
lines 38-49); the repository never calls it. -/
def invalidateCategoryCaches {α : Type} (user_id : Nat)
    (st : List (String × α)) : List (String × α) :=
  runPatterns st (categoryPatterns user_id)

/-- `invalidate_all_user_caches(session, user_id)` (cache_helpers.py
lines 52-61): a single `*{user_id}*` pattern over every namespace. -/
def invalidateAllUserCaches {α : Type} (user_id : Nat)
    (st : List (String × α)) : List (String × α) :=
  runPatterns st [("*" ++ toString user_id ++ "*")]

/-- The complete list of functions that the module
`app.db.redis.cache_helpers` defines (cache_helpers.py has exactly these
three `async def`s); `income_repository.py` line 8 nevertheless imports
`invalidate_income_caches` from it. -/
def cacheHelpersDefs : List String :=
  [("invalidate_expense_caches"), ("invalidate_category_caches"),
   ("invalidate_all_user_caches")]

/-- Cache invalidation performed at the end of a successful
`delete_category` (category_repository.py lines 103-106): the exact keys
of `get_user_categories(user_id)` and `get_category_by_id(category_id,
user_id)`, then `invalidate_expense_caches(session, user_id)` with no
year or month. -/
def deleteCategoryInvalidation {α : Type} (user_id category_id : Nat)
    (st : List (String × α)) : List (String × α) :=
  let st1 := invalidateCacheKey
    (buildKey ("categories") ("get_user_categories") [toString user_id] []) st
  let st2 := invalidateCacheKey
    (buildKey ("category") ("get_category_by_id")
      [toString category_id, toString user_id] []) st1
  invalidateExpenseCaches user_id none none st2

/-- `get_image_key(report_type, user_id, year, month)`
(report_image_cache.py lines 10-14). -/
def getImageKey (report_type : String) (user_id year : Nat)
    (month : Option Nat) : String :=
  match month with
  | some m => ("report_image:") ++ report_type ++ ":" ++ toString user_id ++
      ":" ++ toString year ++ ":" ++ toString m
  | none => ("report_image:") ++ report_type ++ ":" ++ toString user_id ++
      ":" ++ toString year

/-- `cache_report_image` (report_image_cache.py lines 17-27): SET the image
bytes under the derived key (the TTL argument is not modelled; time is
outside this embedding).  Image bytes are modelled as a list of byte
values. -/
def cacheReportImage (report_type : String) (user_id year : Nat)
    (month : Option Nat) (image_bytes : List Nat)
    (st : List (String × List Nat)) : List (String × List Nat) :=
  insertStore st (getImageKey report_type user_id year month) image_bytes

/-- `get_cached_report_image` (report_image_cache.py lines 30-38). -/
def getCachedReportImage (report_type : String) (user_id year : Nat)
    (month : Option Nat) (st : List (String × List Nat)) : Option (List Nat) :=
  lookupStore st (getImageKey report_type user_id year month)

/-- Row of the `Expense` table as used by the claims (the monetary amount
and description columns play no role here and are omitted). -/
structure ExpenseRow where
  id : Nat
  user_id : Nat
  category_id : Nat
  day : Nat
  month : Nat
  year : Nat
deriving DecidableEq

/-- `get_unique_years(session, user_id)` (expense_repository.py lines
217-225): `SELECT DISTINCT year ... ORDER BY year` gives the set of the
user's expense years sorted ascending; the final line
`return years if years else [datetime.now().year]` substitutes the current
calendar year (passed here as `currentYear`) when the list is empty. -/
def getUniqueYears (db : List ExpenseRow) (user_id : Nat)
    (currentYear : Nat) : List Nat :=
  let years :=
    (((db.filter (fun e => e.user_id == user_id)).map (fun e => e.year)).toFinset).sort (· ≤ ·)
  if years.isEmpty then [currentYear] else years

/-- Store with a failure flag for the `redis.keys` scan: the invalidation
helpers contain no `try`/`except`, so a raising scan propagates. -/
structure RStore (α : Type) where
  data : List (String × α)
  keysFails : Bool
deriving DecidableEq

/-- `await redis.keys(pattern)`: either raises (propagated as
`Except.error`) or returns the matching keys. -/
def keysScan {α : Type} (st : RStore α) (pat : String) :
    Except String (List String) :=
  if st.keysFails then Except.error ("ConnectionError")
  else Except.ok ((st.data.filter (fun kv => keyMatch pat kv.1)).map (fun kv => kv.1))

/-- The scan-and-delete loop with error propagation: `redis.keys` may
raise; the subsequent `redis.delete(*keys)` removes exactly the scanned
keys. -/
def runPatternsE {α : Type} : RStore α → List String → Except String (RStore α)
  | st, [] => Except.ok st
  | st, pat :: rest =>
    match keysScan st pat with
    | Except.error e => Except.error e
    | Except.ok ks =>
      runPatternsE ⟨st.data.filter (fun kv => !(ks.contains kv.1)), st.keysFails⟩ rest

/-- `invalidate_report_images` with store-error propagation. -/
def invalidateReportImagesE {α : Type} (user_id : Nat) (year month : Option Nat)
    (st : RStore α) : Except String (RStore α) :=
  runPatternsE st (reportImagePatterns user_id year month)

/-- `invalidate_expense_caches` with store-error propagation: neither the
helper nor its callers catch store exceptions (cache_helpers.py lines
28-35 have no `try`/`except`). -/
def invalidateExpenseCachesE {α : Type} (user_id : Nat) (year month : Option Nat)
    (st : RStore α) : Except String (RStore α) :=
  match runPatternsE st (expensePatterns user_id year month) with
  | Except.error e => Except.error e
  | Except.ok st1 => invalidateReportImagesE user_id year month st1

/-- `add_expense` (expense_repository.py lines 75-99) after its argument
checks: the row is committed to the store of record, then
`invalidate_expense_caches(session, user_id, year, month)` runs with no
error handling, so its result (normal or raised) is what the caller
sees alongside the already-committed row. -/
def addExpenseFlow {α : Type} (db : List ExpenseRow) (e : ExpenseRow)
    (st : RStore α) : List ExpenseRow × Except String (RStore α) :=
  (db ++ [e], invalidateExpenseCachesE e.user_id (some e.year) (some e.month) st)

/-- Concrete serialization pair used in witnesses: `n` is stored as a
string of `n + 1` letters, which is nonempty and round-trips. -/
def unarySerDe : SerDe Nat where
  dumps n := String.mk (List.replicate (n + 1) ('x'))
  loads s := s.data.length - 1

theorem lookupStore_insertStore {α : Type} (st : List (String × α)) (k : String) (v : α) :
    lookupStore (insertStore st k v) k = some v := by
  induction st with
  | nil => simp [insertStore, lookupStore]
  | cons kv rest ih =>
    by_cases h : (kv.1 == k) = true
    · simp [insertStore, h, lookupStore]
    · have h' : (kv.1 == k) = false := by simpa using h
      simp [insertStore, h', lookupStore, ih]

theorem lookupStore_filter_none {α : Type} (f : String × α → Bool) (key : String) :
    ∀ st : List (String × α), (∀ kv ∈ st, kv.1 = key → f kv = false) →
    lookupStore (st.filter f) key = none := by
  intro st
  induction st with
  | nil => intro _; rfl
  | cons kv rest ih =>
    intro h
    have hrest : ∀ kv' ∈ rest, kv'.1 = key → f kv' = false :=
      fun kv' h' he => h kv' (List.mem_cons_of_mem _ h') he
    by_cases hf : f kv = true
    · have hne : (kv.1 == key) = false := by
        have : kv.1 ≠ key := by
          intro he
          rw [h kv (List.mem_cons_self _ _) he] at hf
          exact Bool.false_ne_true hf
        simpa using this
      simp only [List.filter_cons, hf, if_true, lookupStore, hne]
      exact ih hrest
    · have hf' : f kv = false := by simpa using hf
      simp only [List.filter_cons, hf', Bool.false_eq_true, if_false]
      exact ih hrest

theorem lookupStore_filter_eq {α : Type} (f : String × α → Bool) (key : String) :
    ∀ st : List (String × α), (∀ kv ∈ st, kv.1 = key → f kv = true) →
    lookupStore (st.filter f) key = lookupStore st key := by
  intro st
  induction st with
  | nil => intro _; rfl
  | cons kv rest ih =>
    intro h
    have hrest : ∀ kv' ∈ rest, kv'.1 = key → f kv' = true :=
      fun kv' h' he => h kv' (List.mem_cons_of_mem _ h') he
    by_cases hk : kv.1 = key
    · have hf : f kv = true := h kv (List.mem_cons_self _ _) hk
      have hb : (kv.1 == key) = true := by simpa using hk
      simp only [List.filter_cons, hf, if_true, lookupStore, hb]
    · have hb : (kv.1 == key) = false := by simpa using hk
      by_cases hf : f kv = true
      · simp only [List.filter_cons, hf, if_true, lookupStore, hb]
        exact ih hrest
      · have hf' : f kv = false := by simpa using hf
        simp only [List.filter_cons, hf', Bool.false_eq_true, if_false, lookupStore, hb]
        exact ih hrest

theorem runPatterns_eq_filter {α : Type} (pats : List String) :
    ∀ st : List (String × α),
    runPatterns st pats =
      st.filter (fun kv => !(pats.any (fun p => keyMatch p kv.1))) := by
  induction pats with
  | nil => intro st; simp [runPatterns]
  | cons p rest ih =>
    intro st
    show runPatterns (deleteMatching p st) rest = _
    rw [ih, deleteMatching, List.filter_filter]
    apply List.filter_congr
    intro kv _
    cases hp : keyMatch p kv.1 <;>
      cases hr : rest.any (fun q => keyMatch q kv.1) <;>
        simp [List.any_cons, hp, hr]

theorem filter_self_idem {β : Type} (f : β → Bool) (l : List β) :
    (l.filter f).filter f = l.filter f := by
  induction l with
  | nil => rfl
  | cons a l ih =>
    by_cases h : f a = true
    · simp only [List.filter_cons, h, if_true, ih]
    · have h' : f a = false := by simpa using h
      simp only [List.filter_cons, h', Bool.false_eq_true, if_false, ih]

theorem runPatterns_idem {α : Type} (pats : List String) (st : List (String × α)) :
    runPatterns (runPatterns st pats) pats = runPatterns st pats := by
  rw [runPatterns_eq_filter pats st, runPatterns_eq_filter pats]
  exact filter_self_idem _ st

theorem invalidateExpenseCaches_eq_runPatterns {α : Type} (u : Nat)
    (y m : Option Nat) (st : List (String × α)) :
    invalidateExpenseCaches u y m st =
      runPatterns st (expensePatterns u y m ++ reportImagePatterns u y m) := by
  simp [invalidateExpenseCaches, invalidateReportImages, runPatterns,
    List.foldl_append]

theorem lookupStore_runPatterns_none {α : Type} (pats : List String)
    (st : List (String × α)) (key : String)
    (h : ∃ p ∈ pats, keyMatch p key = true) :
    lookupStore (runPatterns st pats) key = none := by
  rw [runPatterns_eq_filter]
  apply lookupStore_filter_none
  intro kv _ hk
  obtain ⟨p, hp, hm⟩ := h
  rw [hk]
  have hany : pats.any (fun p => keyMatch p key) = true :=
    List.any_eq_true.mpr ⟨p, hp, hm⟩
  simp [hany]

theorem lookupStore_runPatterns_eq {α : Type} (pats : List String)
    (st : List (String × α)) (key : String)
    (h : ∀ p ∈ pats, keyMatch p key = false) :
    lookupStore (runPatterns st pats) key = lookupStore st key := by
  rw [runPatterns_eq_filter]
  apply lookupStore_filter_eq
  intro kv _ hk
  rw [hk]
  have hany : pats.any (fun p => keyMatch p key) = false := by
    rw [List.any_eq_false]
    intro p hp
    simp [h p hp]
  simp [hany]

theorem scanned_contains {α : Type} (p : String) (st : List (String × α)) :
    ∀ kv ∈ st,
    (((st.filter (fun kv2 => keyMatch p kv2.1)).map (fun kv2 => kv2.1)).contains kv.1)
      = keyMatch p kv.1 := by
  intro kv hm
  by_cases h : keyMatch p kv.1 = true
  · rw [h]
    have hmem : kv.1 ∈ (st.filter (fun kv2 => keyMatch p kv2.1)).map (fun kv2 => kv2.1) :=
      List.mem_map.mpr ⟨kv, List.mem_filter.mpr ⟨hm, h⟩, rfl⟩
    simpa using hmem
  · have h' : keyMatch p kv.1 = false := by simpa using h
    rw [h']
    have hnmem : kv.1 ∉ (st.filter (fun kv2 => keyMatch p kv2.1)).map (fun kv2 => kv2.1) := by
      intro hmem
      obtain ⟨kv', hkv', he⟩ := List.mem_map.mp hmem
      have hf := (List.mem_filter.mp hkv').2
      rw [he, h'] at hf
      exact Bool.false_ne_true hf
    simpa using hnmem

theorem runPatternsE_ok {α : Type} (pats : List String) :
    ∀ st : List (String × α),
    runPatternsE ⟨st, false⟩ pats = Except.ok ⟨runPatterns st pats, false⟩ := by
  induction pats with
  | nil => intro st; rfl
  | cons p rest ih =>
    intro st
    have hcongr :
        st.filter (fun kv =>
          !(((st.filter (fun kv2 => keyMatch p kv2.1)).map (fun kv2 => kv2.1)).contains kv.1))
        = st.filter (fun kv => !(keyMatch p kv.1)) := by
      apply List.filter_congr
      intro kv hm
      rw [scanned_contains p st kv hm]
    simp only [runPatternsE, keysScan, Bool.false_eq_true, if_false]
    rw [hcongr]
    exact ih (st.filter (fun kv => !(keyMatch p kv.1)))

theorem runPatternsE_error {α : Type} (st : RStore α) (pats : List String)
    (hf : st.keysFails = true) (hne : pats ≠ []) :
    runPatternsE st pats = Except.error ("ConnectionError") := by
  match pats with
  | [] => exact absurd rfl hne
  | p :: rest => simp [runPatternsE, keysScan, hf]

theorem expensePatterns_ne_nil (u : Nat) (y m : Option Nat) :
    expensePatterns u y m ≠ [] := by
  simp only [expensePatterns]
  split
  · split
    · simp
    · simp
  · simp

theorem invalidateExpenseCachesE_error {α : Type} (u : Nat) (y m : Option Nat)
    (st : RStore α) (hf : st.keysFails = true) :
    invalidateExpenseCachesE u y m st = Except.error ("ConnectionError") := by
  simp [invalidateExpenseCachesE,
    runPatternsE_error st _ hf (expensePatterns_ne_nil u y m)]

theorem invalidateExpenseCachesE_ok {α : Type} (u : Nat) (y m : Option Nat)
    (st : List (String × α)) :
    invalidateExpenseCachesE u y m ⟨st, false⟩
      = Except.ok ⟨invalidateExpenseCaches u y m st, false⟩ := by
  simp only [invalidateExpenseCachesE, runPatternsE_ok, invalidateReportImagesE,
    invalidateExpenseCaches, invalidateReportImages]

theorem globMatch_lit_star (lit w : List Char) :
    globMatch (lit ++ ['*']) (lit ++ w) = true :=
  globMatch_append (lit.length + lit.length) lit lit ['*'] w le_rfl
    (globMatch_refl lit) (globMatch_star_any w)

theorem globMatch_seg2 (l₁ w₁ l₂ w₂ : List Char) :
    globMatch ((l₁ ++ ['*']) ++ (l₂ ++ ['*'])) ((l₁ ++ w₁) ++ (l₂ ++ w₂)) = true :=
  globMatch_append _ (l₁ ++ ['*']) (l₁ ++ w₁) _ _ le_rfl
    (globMatch_lit_star l₁ w₁) (globMatch_lit_star l₂ w₂)

theorem globMatch_seg3 (l₁ w₁ l₂ w₂ l₃ w₃ : List Char) :
    globMatch ((l₁ ++ ['*']) ++ ((l₂ ++ ['*']) ++ (l₃ ++ ['*'])))
      ((l₁ ++ w₁) ++ ((l₂ ++ w₂) ++ (l₃ ++ w₃))) = true :=
  globMatch_append _ (l₁ ++ ['*']) (l₁ ++ w₁) _ _ le_rfl
    (globMatch_lit_star l₁ w₁) (globMatch_seg2 l₂ w₂ l₃ w₃)

theorem globMatch_seg4 (l₁ w₁ l₂ w₂ l₃ w₃ l₄ w₄ : List Char) :
    globMatch ((l₁ ++ ['*']) ++ ((l₂ ++ ['*']) ++ ((l₃ ++ ['*']) ++ (l₄ ++ ['*']))))
      ((l₁ ++ w₁) ++ ((l₂ ++ w₂) ++ ((l₃ ++ w₃) ++ (l₄ ++ w₄)))) = true :=
  globMatch_append _ (l₁ ++ ['*']) (l₁ ++ w₁) _ _ le_rfl
    (globMatch_lit_star l₁ w₁) (globMatch_seg3 l₂ w₂ l₃ w₃ l₄ w₄)

theorem uid_infix_of_keyMatch (u : Nat) (p key : String) (a b : List Char)
    (hshape : p.data = a ++ ((toString u).data ++ b))
    (h : keyMatch p key = true) : (toString u).data <:+: key.data := by
  rw [keyMatch, hshape] at h
  exact globMatch_mid_infix a _ b _ (toString_nat_no_star u) h

theorem expensePatterns_some (u Y M : Nat) (hY : Y ≠ 0) (hM : M ≠ 0) :
    expensePatterns u (some Y) (some M) =
      [("total_spent:*" ++ toString u ++ "*"),
       ("unique_years:*" ++ toString u ++ "*"),
       ("last_expenses:*" ++ toString u ++ "*"),
       ("yearly_expenses:*" ++ toString u ++ "*" ++ toString Y ++ "*"),
       ("monthly_expenses:*" ++ toString u ++ "*" ++ toString Y ++ "*" ++ toString M ++ "*"),
       ("daily_expenses:*" ++ toString u ++ "*" ++ toString Y ++ "*" ++ toString M ++ "*"),
       ("expenses_by_date:*" ++ toString u ++ "*" ++ toString Y ++ "*" ++ toString M ++ "*")] := by
  simp [expensePatterns, optTruthy, hY, hM]

theorem star_data : (("*" : String)).data = ['*'] := rfl

theorem colon_data : ((":" : String)).data = [':'] := rfl

theorem dailyPat_data : (("daily_expenses:*" : String)).data
    = (("daily_expenses" : String)).data ++ ([':'] ++ ['*']) := rfl

theorem monthlyPat_data : (("monthly_expenses:*" : String)).data
    = (("monthly_expenses" : String)).data ++ ([':'] ++ ['*']) := rfl

theorem yearlyPat_data : (("yearly_expenses:*" : String)).data
    = (("yearly_expenses" : String)).data ++ ([':'] ++ ['*']) := rfl

/-- Claim C9: for every report kind, user, year, optional month and byte
string, `put` (cache_report_image) followed immediately by `get`
(get_cached_report_image) with the same parameters returns byte-identical
content. -/
theorem reportImage_roundtrip (report_type : String) (user_id year : Nat)
    (month : Option Nat) (image_bytes : List Nat)
    (st : List (String × List Nat)) :
    getCachedReportImage report_type user_id year month
      (cacheReportImage report_type user_id year month image_bytes st)
      = some image_bytes :=
  lookupStore_insertStore _ _ _

/-- Claim C8: invalidation is idempotent — running the expense-scope
invalidation twice leaves the same store as running it once, the same holds
for the report-image invalidation alone, and on a healthy store the
scan-and-delete loop always succeeds (returns `Except.ok`, never an error),
including when no key matches any pattern. -/
theorem invalidate_idempotent (u : Nat) (y m : Option Nat)
    (st : List (String × String)) :
    invalidateExpenseCaches u y m (invalidateExpenseCaches u y m st)
      = invalidateExpenseCaches u y m st
    ∧ invalidateReportImages u y m (invalidateReportImages u y m st)
      = invalidateReportImages u y m st
    ∧ invalidateExpenseCachesE u y m (⟨st, false⟩ : RStore String)
      = Except.ok ⟨invalidateExpenseCaches u y m st, false⟩ := by
  refine ⟨?_, ?_, ?_⟩
  · simp only [invalidateExpenseCaches_eq_runPatterns]
    exact runPatterns_idem _ _
  · exact runPatterns_idem _ _
  · exact invalidateExpenseCachesE_ok u y m st

/-- Claim C7 (amended): a store failure during invalidation is NOT swallowed
— the invalidation helpers have no error handling, so the error propagates
to the caller of the write operation; the row is already committed to the
store of record and is not rolled back. -/
theorem addExpense_invalidation_error_propagates {α : Type}
    (db : List ExpenseRow) (e : ExpenseRow) (st : RStore α)
    (h : st.keysFails = true) :
    addExpenseFlow db e st = (db ++ [e], Except.error ("ConnectionError")) := by
  simp [addExpenseFlow, invalidateExpenseCachesE_error _ _ _ st h]

/-- Witness for C7: a concrete failing scan during `add_expense` for user 1,
March 2024. -/
theorem addExpense_invalidation_error_propagates_witness :
    addExpenseFlow ([] : List ExpenseRow) ⟨1, 1, 1, 5, 3, 2024⟩
      (⟨[], true⟩ : RStore String)
      = ([⟨1, 1, 1, 5, 3, 2024⟩], Except.error ("ConnectionError")) :=
  addExpense_invalidation_error_propagates [] ⟨1, 1, 1, 5, 3, 2024⟩ ⟨[], true⟩ rfl

/-- Counterexample to claim C7 as stated: with a failing pattern scan, the
write operation does not return its normal result — the caller of
`add_expense` receives the store error even though the row was committed. -/
theorem c7_counterexample :
    (addExpenseFlow ([] : List ExpenseRow) ⟨1, 1, 1, 5, 3, 2024⟩
      (⟨[(("total_spent:get_total_spent:1"), ("v"))], true⟩ : RStore String)).2
      = Except.error ("ConnectionError") := by
  rfl

/-- Claim C6 (amended): when the loader result is non-null but the
serialize-and-SET step fails, the error is swallowed and the caller still
receives the loader's value — but via the `except` handler, which runs the
wrapped loader a second time within the call (the store is left
unchanged). -/
theorem redisCache_set_failure_refetch {α : Type} (sd : SerDe α) (key : String)
    (st : CacheStore) (r : α) (hget : st.getFails = false)
    (hmiss : lookupStore st.data key = none) (hset : st.setFails = true) :
    wrapperCall sd (some r) key st = (some r, st, 2) := by
  simp [wrapperCall, hget, hmiss, wrapperMiss, hset]

/-- Witness for C6: concrete miss with a failing SET. -/
theorem redisCache_set_failure_refetch_witness :
    wrapperCall unarySerDe (some 5) ("k") ⟨[], false, true⟩
      = (some 5, ⟨[], false, true⟩, 2) :=
  redisCache_set_failure_refetch unarySerDe ("k") ⟨[], false, true⟩ 5 rfl rfl rfl

/-- Counterexample to claim C6 as stated: on a cache-write failure the
loader runs twice within the call, not once. -/
theorem c6_counterexample :
    (wrapperCall unarySerDe (some 5) ("k") ⟨[], false, true⟩).2.2 = 2
    ∧ ¬ ((wrapperCall unarySerDe (some 5) ("k") ⟨[], false, true⟩).2.2 ≤ 1) := by
  decide

/-- Claim C5 evaluated against the code: `cache_helpers` defines no
`invalidate_income_caches` (so the import in income_repository.py line 8
cannot succeed), and the invalidation that does exist nowhere touches the
income-aggregate namespaces — running the expense-scope invalidation for
user 1, year 2024, month 3 leaves the cached income aggregates in place. -/
theorem income_invalidation_missing :
    ("invalidate_income_caches" ∉ cacheHelpersDefs)
    ∧ lookupStore (invalidateExpenseCaches 1 (some 2024) (some 3)
        [(("total_income:get_total_income:1"), ("ti")),
         (("daily_income:get_daily_incomes:1:2024:3"), ("di")),
         (("last_incomes:get_last_incomes:1"), ("li"))])
        ("total_income:get_total_income:1") = some ("ti")
    ∧ lookupStore (invalidateExpenseCaches 1 (some 2024) (some 3)
        [(("total_income:get_total_income:1"), ("ti")),
         (("daily_income:get_daily_incomes:1:2024:3"), ("di")),
         (("last_incomes:get_last_incomes:1"), ("li"))])
        ("daily_income:get_daily_incomes:1:2024:3") = some ("di") := by
  decide

/-- Claim C2 evaluated at the failing input: after `delete_category` for
user 1 deletes category 2 (expenses reassigned to category 3), the category
list key and the user-wide expense aggregates are gone, but the category
statistics of both the old and the new category, the yearly aggregate and
the monthly aggregate remain in the store. -/
theorem deleteCategory_leaves_stats_and_aggregates :
    lookupStore (deleteCategoryInvalidation 1 2
      [(("categories:get_user_categories:1"), ("cl")),
       (("category_stats:get_category_statistics:1:2"), ("s-old")),
       (("category_stats:get_category_statistics:1:3"), ("s-new")),
       (("yearly_expenses:get_yearly_expenses:1:2024"), ("ye")),
       (("monthly_expenses:get_monthly_expenses:1:2024:3"), ("me")),
       (("total_spent:get_total_spent:1"), ("ts"))])
      ("categories:get_user_categories:1") = none
    ∧ lookupStore (deleteCategoryInvalidation 1 2
      [(("categories:get_user_categories:1"), ("cl")),
       (("category_stats:get_category_statistics:1:2"), ("s-old")),
       (("category_stats:get_category_statistics:1:3"), ("s-new")),
       (("yearly_expenses:get_yearly_expenses:1:2024"), ("ye")),
       (("monthly_expenses:get_monthly_expenses:1:2024:3"), ("me")),
       (("total_spent:get_total_spent:1"), ("ts"))])
      ("total_spent:get_total_spent:1") = none
    ∧ lookupStore (deleteCategoryInvalidation 1 2
      [(("categories:get_user_categories:1"), ("cl")),
       (("category_stats:get_category_statistics:1:2"), ("s-old")),
       (("category_stats:get_category_statistics:1:3"), ("s-new")),
       (("yearly_expenses:get_yearly_expenses:1:2024"), ("ye")),
       (("monthly_expenses:get_monthly_expenses:1:2024:3"), ("me")),
       (("total_spent:get_total_spent:1"), ("ts"))])
      ("category_stats:get_category_statistics:1:2") = some ("s-old")
    ∧ lookupStore (deleteCategoryInvalidation 1 2
      [(("categories:get_user_categories:1"), ("cl")),
       (("category_stats:get_category_statistics:1:2"), ("s-old")),
       (("category_stats:get_category_statistics:1:3"), ("s-new")),
       (("yearly_expenses:get_yearly_expenses:1:2024"), ("ye")),
       (("monthly_expenses:get_monthly_expenses:1:2024:3"), ("me")),
       (("total_spent:get_total_spent:1"), ("ts"))])
      ("category_stats:get_category_statistics:1:3") = some ("s-new")
    ∧ lookupStore (deleteCategoryInvalidation 1 2
      [(("categories:get_user_categories:1"), ("cl")),
       (("category_stats:get_category_statistics:1:2"), ("s-old")),
       (("category_stats:get_category_statistics:1:3"), ("s-new")),
       (("yearly_expenses:get_yearly_expenses:1:2024"), ("ye")),
       (("monthly_expenses:get_monthly_expenses:1:2024:3"), ("me")),
       (("total_spent:get_total_spent:1"), ("ts"))])
      ("yearly_expenses:get_yearly_expenses:1:2024") = some ("ye")
    ∧ lookupStore (deleteCategoryInvalidation 1 2
      [(("categories:get_user_categories:1"), ("cl")),
       (("category_stats:get_category_statistics:1:2"), ("s-old")),
       (("category_stats:get_category_statistics:1:3"), ("s-new")),
       (("yearly_expenses:get_yearly_expenses:1:2024"), ("ye")),
       (("monthly_expenses:get_monthly_expenses:1:2024:3"), ("me")),
       (("total_spent:get_total_spent:1"), ("ts"))])
      ("monthly_expenses:get_monthly_expenses:1:2024:3") = some ("me") := by
  decide

/-- Counterexample to claim C4 as stated: invalidating the scope of user 1
deletes a cache entry belonging to the distinct user 12, because the
decimal form of 1 occurs inside 12 and the wildcard pattern
`total_spent:*1*` matches user 12's key. -/
theorem c4_counterexample :
    (1 : Nat) ≠ 12
    ∧ lookupStore (invalidateExpenseCaches 1 (some 2024) (some 3)
        [(("total_spent:get_total_spent:12"), ("v"))])
        ("total_spent:get_total_spent:12") = none := by
  decide

/-- Counterexample to claim C1 as stated: an operation whose loader returns
null (e.g. `get_expense_by_id` on an absent id) is never cached, so calling
it twice invokes the loader twice, not at most once. -/
theorem c1_counterexample :
    (wrapperCall unarySerDe (none : Option Nat)
        ("expense:get_expense_by_id:99") ⟨[], false, false⟩).2.2
      + (wrapperCall unarySerDe (none : Option Nat)
          ("expense:get_expense_by_id:99")
          ((wrapperCall unarySerDe (none : Option Nat)
            ("expense:get_expense_by_id:99") ⟨[], false, false⟩).2.1)).2.2 = 2 := by
  decide

/-- Claim C1 (amended): with a functioning store and no intervening
invalidation, if the first call misses and the loader's result is non-null
(and hence cacheable: its serialization is non-empty and round-trips, as
`json.dumps`/`json.loads` give for the repository's serializable results),
the first call invokes the loader exactly once and returns its result, and
a second call with the identical argument tuple — hence the identical
default-built key — is a cache hit: it returns the deserialized stored
value and does not invoke the loader. -/
theorem redisCache_second_call_hit {α : Type} (sd : SerDe α)
    (pfx fname : String) (args : List String)
    (kwargs : List (String × String)) (st : CacheStore) (r : α)
    (hget : st.getFails = false) (hset : st.setFails = false)
    (hmiss : lookupStore st.data (buildKey pfx fname args kwargs) = none)
    (hne : sd.dumps r ≠ "") (hrt : sd.loads (sd.dumps r) = r) :
    (wrapperCall sd (some r) (buildKey pfx fname args kwargs) st).1 = some r
    ∧ (wrapperCall sd (some r) (buildKey pfx fname args kwargs) st).2.2 = 1
    ∧ wrapperCall sd (some r) (buildKey pfx fname args kwargs)
        (wrapperCall sd (some r) (buildKey pfx fname args kwargs) st).2.1
      = (some r,
         (wrapperCall sd (some r) (buildKey pfx fname args kwargs) st).2.1,
         0) := by
  revert hmiss
  generalize buildKey pfx fname args kwargs = key
  intro hmiss
  have h1 : wrapperCall sd (some r) key st
      = (some r, { st with data := insertStore st.data key (sd.dumps r) }, 1) := by
    simp [wrapperCall, hget, hmiss, wrapperMiss, hset]
  have hne' : (sd.dumps r == "") = false := by simpa using hne
  have h2 : lookupStore (insertStore st.data key (sd.dumps r)) key
      = some (sd.dumps r) := lookupStore_insertStore _ _ _
  refine ⟨by rw [h1], by rw [h1], ?_⟩
  rw [h1]
  simp [wrapperCall, hget, h2, hne', hrt]

/-- Witness for C1: user 7's category list, cached on the first call and
served from the store on the second. -/
theorem redisCache_second_call_hit_witness :
    (wrapperCall unarySerDe (some 2)
        (buildKey ("categories") ("get_user_categories") [toString 7] [])
        ⟨[], false, false⟩).1 = some 2
    ∧ (wrapperCall unarySerDe (some 2)
        (buildKey ("categories") ("get_user_categories") [toString 7] [])
        ⟨[], false, false⟩).2.2 = 1
    ∧ wrapperCall unarySerDe (some 2)
        (buildKey ("categories") ("get_user_categories") [toString 7] [])
        ((wrapperCall unarySerDe (some 2)
          (buildKey ("categories") ("get_user_categories") [toString 7] [])
          ⟨[], false, false⟩).2.1)
      = (some 2,
         (wrapperCall unarySerDe (some 2)
           (buildKey ("categories") ("get_user_categories") [toString 7] [])
           ⟨[], false, false⟩).2.1,
         0) :=
  redisCache_second_call_hit unarySerDe ("categories") ("get_user_categories")
    [toString 7] [] ⟨[], false, false⟩ 2 rfl rfl rfl (by decide) (by decide)

/-- Claim C3: `invalidate_all_user_caches` removes every cache entry whose
key carries the user's identifier (the decimal form of the id occurs in the
key), regardless of namespace. -/
theorem invalidateAllUserCaches_removes {α : Type} (u : Nat)
    (st : List (String × α)) (key : String)
    (h : (toString u).data <:+: key.data) :
    lookupStore (invalidateAllUserCaches u st) key = none := by
  apply lookupStore_runPatterns_none
  refine ⟨("*" ++ toString u ++ "*"), List.mem_singleton.mpr rfl, ?_⟩
  rw [keyMatch]
  have hd : (("*" ++ toString u ++ "*") : String).data
      = '*' :: ((toString u).data ++ ['*']) := by
    simp [star_data, List.append_assoc]
  rw [hd]
  exact globMatch_of_infix _ _ h

/-- Witness for C3: user 7's category-list key is removed. -/
theorem invalidateAllUserCaches_removes_witness :
    lookupStore (invalidateAllUserCaches 7
      [(("categories:get_user_categories:7"), ("x"))])
      ("categories:get_user_categories:7") = none :=
  invalidateAllUserCaches_removes 7
    [(("categories:get_user_categories:7"), ("x"))]
    ("categories:get_user_categories:7") (by decide)

/-- Claim C4 (amended): invalidating the scope (user, year, month) deletes
the cached daily and monthly aggregates for that (user, year, month) and
the yearly aggregate for that (user, year) — the canonical keys built by
the memoizer for `get_daily_expenses`, `get_monthly_expenses` and
`get_yearly_expenses` are absent afterwards — and it leaves every cache
entry untouched whose key does not contain the decimal form of the user id
as a substring.  (Unrestricted non-interference between distinct users
fails: ids whose decimal forms overlap, such as 1 and 12, collide through
the wildcard patterns.) -/
theorem invalidateExpenseCaches_scope {α : Type} (u Y M : Nat)
    (hY : 0 < Y) (hM : 0 < M) (st : List (String × α)) :
    (∀ key : String, ¬ ((toString u).data <:+: key.data) →
      lookupStore (invalidateExpenseCaches u (some Y) (some M) st) key
        = lookupStore st key)
    ∧ lookupStore (invalidateExpenseCaches u (some Y) (some M) st)
        (buildKey ("daily_expenses") ("get_daily_expenses")
          [toString u, toString Y, toString M] []) = none
    ∧ lookupStore (invalidateExpenseCaches u (some Y) (some M) st)
        (buildKey ("monthly_expenses") ("get_monthly_expenses")
          [toString u, toString Y, toString M] []) = none
    ∧ lookupStore (invalidateExpenseCaches u (some Y) (some M) st)
        (buildKey ("yearly_expenses") ("get_yearly_expenses")
          [toString u, toString Y] []) = none := by
  have hY' : Y ≠ 0 := by omega
  have hM' : M ≠ 0 := by omega
  refine ⟨?_, ?_, ?_, ?_⟩
  · intro key hni
    rw [invalidateExpenseCaches_eq_runPatterns]
    apply lookupStore_runPatterns_eq
    intro p hp
    by_contra hc
    have hmatch : keyMatch p key = true := by simpa using hc
    apply hni
    rw [List.mem_append, expensePatterns_some u Y M hY' hM'] at hp
    simp only [reportImagePatterns, List.mem_cons, List.not_mem_nil, or_false] at hp
    rcases hp with (h | h | h | h | h | h | h) | (h | h | h) <;> subst h
    · exact uid_infix_of_keyMatch u _ key ((("total_spent:*" : String)).data)
        (['*']) (by simp [star_data, List.append_assoc]) hmatch
    · exact uid_infix_of_keyMatch u _ key ((("unique_years:*" : String)).data)
        (['*']) (by simp [star_data, List.append_assoc]) hmatch
    · exact uid_infix_of_keyMatch u _ key ((("last_expenses:*" : String)).data)
        (['*']) (by simp [star_data, List.append_assoc]) hmatch
    · exact uid_infix_of_keyMatch u _ key ((("yearly_expenses:*" : String)).data)
        ('*' :: ((toString Y).data ++ ['*']))
        (by simp [star_data, List.append_assoc]) hmatch
    · exact uid_infix_of_keyMatch u _ key ((("monthly_expenses:*" : String)).data)
        ('*' :: ((toString Y).data ++ ('*' :: ((toString M).data ++ ['*']))))
        (by simp [star_data, List.append_assoc]) hmatch
    · exact uid_infix_of_keyMatch u _ key ((("daily_expenses:*" : String)).data)
        ('*' :: ((toString Y).data ++ ('*' :: ((toString M).data ++ ['*']))))
        (by simp [star_data, List.append_assoc]) hmatch
    · exact uid_infix_of_keyMatch u _ key ((("expenses_by_date:*" : String)).data)
        ('*' :: ((toString Y).data ++ ('*' :: ((toString M).data ++ ['*']))))
        (by simp [star_data, List.append_assoc]) hmatch
    · exact uid_infix_of_keyMatch u _ key ((("report_image:daily:" : String)).data)
        (':' :: ((toString Y).data ++ (':' :: (toString M).data)))
        (by simp [colon_data, List.append_assoc]) hmatch
    · exact uid_infix_of_keyMatch u _ key ((("report_image:monthly:" : String)).data)
        (':' :: ((toString Y).data ++ (':' :: (toString M).data)))
        (by simp [colon_data, List.append_assoc]) hmatch
    · exact uid_infix_of_keyMatch u _ key ((("report_image:yearly:" : String)).data)
        (':' :: (toString Y).data)
        (by simp [colon_data, List.append_assoc]) hmatch
  · rw [invalidateExpenseCaches_eq_runPatterns]
    apply lookupStore_runPatterns_none
    refine ⟨("daily_expenses:*" ++ toString u ++ "*" ++ toString Y ++ "*"
        ++ toString M ++ "*"), ?_, ?_⟩
    · rw [List.mem_append, expensePatterns_some u Y M hY' hM']
      left
      simp
    · have hbk : buildKey ("daily_expenses") ("get_daily_expenses")
          [toString u, toString Y, toString M] []
          = ("daily_expenses" : String) ++ ":" ++ (("get_daily_expenses" : String)
            ++ ":" ++ (toString u ++ ":" ++ (toString Y ++ ":" ++ toString M))) := by
        simp [buildKey, joinColon]
      rw [hbk, keyMatch]
      have hseg := globMatch_seg4
        ((("daily_expenses" : String)).data ++ [':'])
        ((("get_daily_expenses" : String)).data ++ [':'])
        ((toString u)).data [':'] ((toString Y)).data [':'] ((toString M)).data []
      have hP : ("daily_expenses:*" ++ toString u ++ "*" ++ toString Y ++ "*"
            ++ toString M ++ "*").data
          = (((("daily_expenses" : String)).data ++ [':']) ++ ['*'])
            ++ ((((toString u)).data ++ ['*']) ++ ((((toString Y)).data ++ ['*'])
              ++ (((toString M)).data ++ ['*']))) := by
        simp [dailyPat_data, star_data, List.append_assoc]
      have hK : (("daily_expenses" : String) ++ ":" ++ (("get_daily_expenses" : String)
            ++ ":" ++ (toString u ++ ":" ++ (toString Y ++ ":" ++ toString M)))).data
          = (((("daily_expenses" : String)).data ++ [':'])
              ++ ((("get_daily_expenses" : String)).data ++ [':']))
            ++ ((((toString u)).data ++ [':']) ++ ((((toString Y)).data ++ [':'])
              ++ (((toString M)).data ++ ([] : List Char)))) := by
        simp [colon_data, List.append_assoc]
      rw [hP, hK]
      exact hseg
  · rw [invalidateExpenseCaches_eq_runPatterns]
    apply lookupStore_runPatterns_none
    refine ⟨("monthly_expenses:*" ++ toString u ++ "*" ++ toString Y ++ "*"
        ++ toString M ++ "*"), ?_, ?_⟩
    · rw [List.mem_append, expensePatterns_some u Y M hY' hM']
      left
      simp
    · have hbk : buildKey ("monthly_expenses") ("get_monthly_expenses")
          [toString u, toString Y, toString M] []
          = ("monthly_expenses" : String) ++ ":" ++ (("get_monthly_expenses" : String)
            ++ ":" ++ (toString u ++ ":" ++ (toString Y ++ ":" ++ toString M))) := by
        simp [buildKey, joinColon]
      rw [hbk, keyMatch]
      have hseg := globMatch_seg4
        ((("monthly_expenses" : String)).data ++ [':'])
        ((("get_monthly_expenses" : String)).data ++ [':'])
        ((toString u)).data [':'] ((toString Y)).data [':'] ((toString M)).data []
      have hP : ("monthly_expenses:*" ++ toString u ++ "*" ++ toString Y ++ "*"
            ++ toString M ++ "*").data
          = (((("monthly_expenses" : String)).data ++ [':']) ++ ['*'])
            ++ ((((toString u)).data ++ ['*']) ++ ((((toString Y)).data ++ ['*'])
              ++ (((toString M)).data ++ ['*']))) := by
        simp [monthlyPat_data, star_data, List.append_assoc]
      have hK : (("monthly_expenses" : String) ++ ":" ++ (("get_monthly_expenses" : String)
            ++ ":" ++ (toString u ++ ":" ++ (toString Y ++ ":" ++ toString M)))).data
          = (((("monthly_expenses" : String)).data ++ [':'])
              ++ ((("get_monthly_expenses" : String)).data ++ [':']))
            ++ ((((toString u)).data ++ [':']) ++ ((((toString Y)).data ++ [':'])
              ++ (((toString M)).data ++ ([] : List Char)))) := by
        simp [colon_data, List.append_assoc]
      rw [hP, hK]
      exact hseg
  · rw [invalidateExpenseCaches_eq_runPatterns]
    apply lookupStore_runPatterns_none
    refine ⟨("yearly_expenses:*" ++ toString u ++ "*" ++ toString Y ++ "*"), ?_, ?_⟩
    · rw [List.mem_append, expensePatterns_some u Y M hY' hM']
      left
      simp
    · have hbk : buildKey ("yearly_expenses") ("get_yearly_expenses")
          [toString u, toString Y] []
          = ("yearly_expenses" : String) ++ ":" ++ (("get_yearly_expenses" : String)
            ++ ":" ++ (toString u ++ ":" ++ toString Y)) := by
        simp [buildKey, joinColon]
      rw [hbk, keyMatch]
      have hseg := globMatch_seg3
        ((("yearly_expenses" : String)).data ++ [':'])
        ((("get_yearly_expenses" : String)).data ++ [':'])
        ((toString u)).data [':'] ((toString Y)).data []
      have hP : ("yearly_expenses:*" ++ toString u ++ "*" ++ toString Y ++ "*").data
          = (((("yearly_expenses" : String)).data ++ [':']) ++ ['*'])
            ++ ((((toString u)).data ++ ['*']) ++ (((toString Y)).data ++ ['*'])) := by
        simp [yearlyPat_data, star_data, List.append_assoc]
      have hK : (("yearly_expenses" : String) ++ ":" ++ (("get_yearly_expenses" : String)
            ++ ":" ++ (toString u ++ ":" ++ toString Y))).data
          = (((("yearly_expenses" : String)).data ++ [':'])
              ++ ((("get_yearly_expenses" : String)).data ++ [':']))
            ++ ((((toString u)).data ++ [':']) ++ (((toString Y)).data ++ ([] : List Char))) := by
        simp [colon_data, List.append_assoc]
      rw [hP, hK]
      exact hseg

/-- Witness for C4: user 1, March 2024, on a concrete store type. -/
theorem invalidateExpenseCaches_scope_witness :
    (∀ key : String, ¬ ((toString 1).data <:+: key.data) →
      lookupStore (invalidateExpenseCaches 1 (some 2024) (some 3)
        ([] : List (String × String))) key
        = lookupStore ([] : List (String × String)) key)
    ∧ lookupStore (invalidateExpenseCaches 1 (some 2024) (some 3)
        ([] : List (String × String)))
        (buildKey ("daily_expenses") ("get_daily_expenses")
          [toString 1, toString 2024, toString 3] []) = none
    ∧ lookupStore (invalidateExpenseCaches 1 (some 2024) (some 3)
        ([] : List (String × String)))
        (buildKey ("monthly_expenses") ("get_monthly_expenses")
          [toString 1, toString 2024, toString 3] []) = none
    ∧ lookupStore (invalidateExpenseCaches 1 (some 2024) (some 3)
        ([] : List (String × String)))
        (buildKey ("yearly_expenses") ("get_yearly_expenses")
          [toString 1, toString 2024] []) = none :=
  invalidateExpenseCaches_scope 1 2024 3 (by decide) (by decide) []

/-- Claim C10: `get_unique_years` never returns an empty list; its result
is strictly ascending (hence distinct); when the user has no expense rows
it is exactly `[currentYear]` (the `datetime.now().year` fallback), and
when the user has at least one expense row its members are exactly the
user's expense years. -/
theorem getUniqueYears_spec (db : List ExpenseRow) (user_id currentYear : Nat) :
    getUniqueYears db user_id currentYear ≠ []
    ∧ List.Sorted (· < ·) (getUniqueYears db user_id currentYear)
    ∧ (db.filter (fun e => e.user_id == user_id) = [] →
        getUniqueYears db user_id currentYear = [currentYear])
    ∧ (db.filter (fun e => e.user_id == user_id) ≠ [] →
        ∀ y : Nat, (y ∈ getUniqueYears db user_id currentYear ↔
          ∃ e ∈ db, e.user_id = user_id ∧ e.year = y)) := by
  have hunf : getUniqueYears db user_id currentYear
      = if ((((db.filter (fun e => e.user_id == user_id)).map
          (fun e => e.year)).toFinset).sort (· ≤ ·)).isEmpty
        then [currentYear]
        else (((db.filter (fun e => e.user_id == user_id)).map
          (fun e => e.year)).toFinset).sort (· ≤ ·) := rfl
  have hmem : ∀ y : Nat,
      (y ∈ (((db.filter (fun e => e.user_id == user_id)).map
          (fun e => e.year)).toFinset).sort (· ≤ ·)
        ↔ ∃ e ∈ db, e.user_id = user_id ∧ e.year = y) := by
    intro y
    rw [Finset.mem_sort, List.mem_toFinset]
    simp [List.mem_map, List.mem_filter, and_assoc]
  by_cases hl : db.filter (fun e => e.user_id == user_id) = []
  · have hfin : (((db.filter (fun e => e.user_id == user_id)).map
        (fun e => e.year)).toFinset).sort (· ≤ ·) = [] := by
      rw [hl]
      simp [Finset.sort_empty]
    rw [hunf, hfin]
    refine ⟨by simp, by simp, fun _ => by simp, fun hne => absurd hl hne⟩
  · have hlne : (db.filter (fun e => e.user_id == user_id)).map (fun e => e.year) ≠ [] := by
      simpa using hl
    have hfin : (((db.filter (fun e => e.user_id == user_id)).map
        (fun e => e.year)).toFinset).sort (· ≤ ·) ≠ [] := by
      intro hs
      obtain ⟨a, ha⟩ := List.exists_mem_of_ne_nil _ hlne
      have hsm : a ∈ (((db.filter (fun e => e.user_id == user_id)).map
          (fun e => e.year)).toFinset).sort (· ≤ ·) := by
        rw [Finset.mem_sort, List.mem_toFinset]
        exact ha
      rw [hs] at hsm
      exact absurd hsm (List.not_mem_nil a)
    have hie : ((((db.filter (fun e => e.user_id == user_id)).map
        (fun e => e.year)).toFinset).sort (· ≤ ·)).isEmpty = false := by
      simpa [List.isEmpty_iff] using hfin
    rw [hunf, hie]
    simp only [Bool.false_eq_true, if_false]
    exact ⟨hfin, Finset.sort_sorted_lt _, fun he => absurd he hl, fun _ => hmem⟩
